import Mathlib

set_option autoImplicit false

/-!
Shallow embedding of `Orange/modelling/base.py`: the `Fitter` dispatcher,
its `FitterMeta` metaclass check, lazy per-problem-type learner
construction with keyword filtering, preprocessing propagation, and
attribute proxying via `__getattr__`.

Python exceptions are modelled with `Except`; every stateful method
returns its result together with the post-call dispatcher state, so the
state mutations that happen before an exception is raised are preserved.
-/

/-- Configuration values stored in the dispatcher's keyword mapping
(Python objects; a small closed universe suffices for the excerpt). -/
inductive Value where
  | pyNone
  | nat (n : Nat)
  | str (s : String)
deriving DecidableEq

/-- Problem-kind constants `CLASSIFICATION, REGRESSION = range(2)`. -/
inductive ProblemType where
  | classification
  | regression
deriving DecidableEq

/-- Python dict lookup `d.get(k)` on an association list with string keys. -/
def lookupKV (d : List (String × Value)) (k : String) : Option Value :=
  match d with
  | [] => Option.none
  | (k', v) :: rest => if k' = k then Option.some v else lookupKV rest k

/-- Python dict item assignment `d[k] = v` on an association list:
replace the value if the key is present, append the pair otherwise. -/
def dictSet (d : List (String × Value)) (k : String) (v : Value) : List (String × Value) :=
  match d with
  | [] => [(k, v)]
  | (k', v') :: rest => if k' = k then (k, v) :: rest else (k', v') :: dictSet rest k v

/-- A learner class (constructor reference) as the dispatcher sees it.
CPython lays out `__init__.__code__.co_varnames` with `self` first, the
declared parameters next, and the constructor body's local variables
last; `attrs` are the attributes an instance of the class exposes. -/
structure LearnerClass where
  params : List String
  localVars : List String
  attrs : List (String × Value)
deriving DecidableEq

/-- `learner.__init__.__code__.co_varnames`: `self`, then the declared
parameters, then the body's local variables. -/
def LearnerClass.co_varnames (cls : LearnerClass) : List String :=
  "self" :: (cls.params ++ cls.localVars)

/-- `LearnerTypes = namedtuple('LearnerTypes', ['classification', 'regression'])`,
with `None` allowed in a slot (modelled by `Option`). -/
structure LearnerTypes where
  classification : Option LearnerClass
  regression : Option LearnerClass
deriving DecidableEq

/-- Indexing the namedtuple by the integer constants, `__fits__[problem_type]`:
`CLASSIFICATION = 0` is the first field, `REGRESSION = 1` the second. -/
def LearnerTypes.get (ft : LearnerTypes) : ProblemType → Option LearnerClass
  | ProblemType.classification => ft.classification
  | ProblemType.regression => ft.regression

/-- A constructed learner instance. `ident` models Python object identity
(a fresh allocation number); `init_kwargs` records the keyword arguments
the constructor received. -/
structure Learner where
  cls : LearnerClass
  init_kwargs : List (String × Value)
  use_default_preprocessors : Bool
  ident : Nat
deriving DecidableEq

/-- `self.__fits__[problem_type](**kwargs)`: constructing a learner
instance from its class. The `use_default_preprocessors` flag starts at
the base-class default and is overwritten by the dispatcher right after
construction. -/
def LearnerClass.construct (cls : LearnerClass) (kw : List (String × Value)) (n : Nat) : Learner :=
  { cls := cls, init_kwargs := kw, use_default_preprocessors := false, ident := n }

/-- `getattr(learner, item)`: attribute lookup on a learner instance
(`none` models the lookup failing on the learner as well). -/
def Learner.getattr (l : Learner) (item : String) : Option Value :=
  lookupKV l.cls.attrs item

/-- The slice of `data.domain` the dispatcher consults. -/
structure Domain where
  has_discrete_class : Bool
deriving DecidableEq

/-- A dataset, borrowed per call. -/
structure Data where
  domain : Domain
deriving DecidableEq

/-- `self.CLASSIFICATION if data.domain.has_discrete_class else self.REGRESSION`. -/
def Data.problemTypeOf (d : Data) : ProblemType :=
  if d.domain.has_discrete_class then ProblemType.classification else ProblemType.regression

/-- The model returned by `learner(data)`; the external fitting algorithm
is opaque, so the model records which learner was applied to which data. -/
structure ModelV where
  learner : Learner
  data : Data
deriving DecidableEq

/-- Invoking a learner on a dataset (external collaborator, opaque). -/
def Learner.call (l : Learner) (d : Data) : ModelV :=
  { learner := l, data := d }

/-- Python exceptions raised in the excerpt. -/
inductive FitterError where
  | assertionError (msg : String)
  | attributeError (msg : String)
deriving DecidableEq

/-- Message of the `AttributeError` raised by `Fitter.get_learner`. -/
def noLearnerMsg : String :=
  "There is no learner defined that handles that type of data"

/-- The `AttributeError` raised by `Fitter.get_learner` for an unhandled
problem type (the spec's `UnsupportedProblemKind`). -/
def noLearnerError : FitterError :=
  FitterError.attributeError noLearnerMsg

/-- Message of the `AssertionError` raised by `FitterMeta.__new__`
(the spec's `InvalidSubtypeDefinition`). -/
def fitsMsg : String :=
  "The `__fits__` property must be an instance of `Orange.base.LearnerTypes`."

/-- Values that can appear in a class dict handed to `FitterMeta.__new__`. -/
inductive PyVal where
  | pyNone
  | bool (b : Bool)
  | str (s : String)
  | fits (ft : LearnerTypes)
deriving DecidableEq

/-- Python truthiness of a class-dict value. -/
def PyVal.truthy : PyVal → Bool
  | PyVal.pyNone => false
  | PyVal.bool b => b
  | PyVal.str s => decide (s ≠ "")
  | PyVal.fits _ => true

/-- `isinstance(v, LearnerTypes)`. -/
def PyVal.isLearnerTypes : PyVal → Bool
  | PyVal.fits _ => true
  | _ => false

/-- `kwargs.get(k, dflt)` on a class dict. -/
def classDictGet (d : List (String × PyVal)) (k : String) (dflt : PyVal) : PyVal :=
  match d with
  | [] => dflt
  | (k', v) :: rest => if k' = k then v else classDictGet rest k dflt

/-- Key of the `name` entry consulted by `FitterMeta.__new__`. -/
def nameKey : String := "name"

/-- Key of the `__fits__` entry consulted by `FitterMeta.__new__`. -/
def fitsKey : String := "__fits__"

/-- Reserved key under which `Fitter.__init__` stores the preprocessing
value inside the kwargs mapping. -/
def preprocessorsKey : String := "preprocessors"

/-- `FitterMeta.__new__`: reject the class definition (raise
`AssertionError`) when the class dict holds a truthy `name` entry whose
accompanying `__fits__` entry is not a `LearnerTypes` instance;
`Except.ok ()` stands for the class being created by `type.__new__`. -/
def FitterMeta_new (kwargs : List (String × PyVal)) : Except FitterError Unit :=
  if (classDictGet kwargs nameKey (PyVal.bool false)).truthy
      && !(classDictGet kwargs fitsKey PyVal.pyNone).isLearnerTypes then
    Except.error (FitterError.assertionError fitsMsg)
  else
    Except.ok ()

/-- The lazy learner cache `{CLASSIFICATION: None, REGRESSION: None}`. -/
structure Learners where
  classification : Option Learner
  regression : Option Learner
deriving DecidableEq

/-- Reading one cache slot (`self.__learners[problem_type]`). -/
def Learners.get (ls : Learners) : ProblemType → Option Learner
  | ProblemType.classification => ls.classification
  | ProblemType.regression => ls.regression

/-- Writing one cache slot (`self.__learners[problem_type] = learner`). -/
def Learners.set (ls : Learners) (k : ProblemType) (v : Option Learner) : Learners :=
  match k with
  | ProblemType.classification => { ls with classification := v }
  | ProblemType.regression => { ls with regression := v }

/-- A `Fitter` instance's state. `use_default_preprocessors` is inherited
from the `Orange.base.Learner` base class (outside the excerpt) and is
never written by the dispatcher code itself; `nextId` models the
allocator supplying object identities for constructed learners. -/
structure Fitter where
  fits : LearnerTypes
  kwargs : List (String × Value)
  use_default_preprocessors : Bool
  problem_type : Option ProblemType
  learners : Learners
  nextId : Nat
deriving DecidableEq

/-- `Fitter.__init__`: store the open kwargs, inject the preprocessing
value under the reserved key, clear the problem type, and leave both
cache slots empty. -/
def Fitter.init (fits : LearnerTypes) (udp : Bool) (preprocessors : Value)
    (kwargs : List (String × Value)) : Fitter :=
  { fits := fits
    kwargs := dictSet kwargs preprocessorsKey preprocessors
    use_default_preprocessors := udp
    problem_type := Option.none
    learners := { classification := Option.none, regression := Option.none }
    nextId := 0 }

/-- `Fitter.__handled_problem_types`: the set of problem types whose
`__fits__` slot is not `None`. -/
def Fitter.handledProblemTypes (f : Fitter) : List ProblemType :=
  (if f.fits.classification.isSome then [ProblemType.classification] else []) ++
  (if f.fits.regression.isSome then [ProblemType.regression] else [])

/-- `Fitter._get_learner_kwargs`: the constructor's `co_varnames` minus
the leading `self` — declared parameters and body locals alike. -/
def Fitter.get_learner_kwargs (cls : LearnerClass) : List String :=
  cls.co_varnames.drop 1

/-- `Fitter.__get_kwargs`: the stored kwargs restricted to the names the
target constructor's code object mentions (the dict comprehension over
`params & set(kwargs.keys())`, keyed here in stored order — Python dicts
compare by contents, not order). -/
def Fitter.get_kwargs (kwargs : List (String × Value)) (cls : LearnerClass) : List (String × Value) :=
  kwargs.filter (fun p => (Fitter.get_learner_kwargs cls).contains p.1)

/-- `Fitter.get_learner`: raise for a problem type outside
`__handled_problem_types` (this includes the `None` held by
`problem_type` before any call), construct, flag and cache the learner
on first access, and return the cached learner afterwards. The inner
`Option.none` branch on `f.fits.get k` is unreachable: membership in
`handledProblemTypes` forces the slot to be bound. -/
def Fitter.get_learner (f : Fitter) (pt : Option ProblemType) :
    Except FitterError Learner × Fitter :=
  match pt with
  | Option.none => (Except.error noLearnerError, f)
  | Option.some k =>
    if k ∈ f.handledProblemTypes then
      match f.learners.get k with
      | Option.some l => (Except.ok l, f)
      | Option.none =>
        match f.fits.get k with
        | Option.none => (Except.error noLearnerError, f)
        | Option.some cls =>
          let l0 := LearnerClass.construct cls (Fitter.get_kwargs f.kwargs cls) f.nextId
          let l := { l0 with use_default_preprocessors := f.use_default_preprocessors }
          (Except.ok l,
            { f with learners := f.learners.set k (Option.some l), nextId := f.nextId + 1 })
    else (Except.error noLearnerError, f)

/-- `Fitter.__call__`: record the problem type read off the data (this
assignment happens before `get_learner` can raise), then delegate to the
learner resolved for it. -/
def Fitter.call (f : Fitter) (data : Data) : Except FitterError ModelV × Fitter :=
  let pt := data.problemTypeOf
  let f1 : Fitter := { f with problem_type := Option.some pt }
  match f1.get_learner (Option.some pt) with
  | (Except.ok l, f2) => (Except.ok (l.call data), f2)
  | (Except.error e, f2) => (Except.error e, f2)

/-- `Fitter.__getattr__`: forward an unknown attribute lookup to the
learner resolved for the current `problem_type`. -/
def Fitter.getattr (f : Fitter) (item : String) :
    Except FitterError (Option Value) × Fitter :=
  match f.get_learner f.problem_type with
  | (Except.ok l, f') => (Except.ok (l.getattr item), f')
  | (Except.error e, f') => (Except.error e, f')

/-- A sequence of `__call__` invocations, threading the dispatcher state
(results and raised errors are discarded; only the state evolves). -/
def Fitter.runCalls (f : Fitter) : List Data → Fitter
  | [] => f
  | d :: rest => Fitter.runCalls (f.call d).2 rest

/-- The learner `get_learner` constructs on a cache miss: the class called
with the filtered kwargs, its preprocessors flag then overwritten from
the dispatcher. -/
def Fitter.freshLearner (f : Fitter) (cls : LearnerClass) : Learner :=
  { LearnerClass.construct cls (Fitter.get_kwargs f.kwargs cls) f.nextId with
      use_default_preprocessors := f.use_default_preprocessors }

/-! Concrete instances used in closed statements. -/

/-- Key named `a`. -/
def keyA : String := "a"

/-- Key named `b`. -/
def keyB : String := "b"

/-- Key named `c`. -/
def keyC : String := "c"

/-- Attribute named `coef`, exposed by the concrete classification learner. -/
def coefKey : String := "coef"

/-- A classification learner class whose constructor accepts exactly the
parameters `a` and `c` and declares no extra locals. -/
def clsA : LearnerClass :=
  { params := [keyA, keyC], localVars := [], attrs := [(coefKey, Value.nat 7)] }

/-- A learner class whose constructor accepts only the parameter `a` but
declares a body-local variable named `b`. -/
def clsB : LearnerClass :=
  { params := [keyA], localVars := [keyB], attrs := [] }

/-- A regression learner class with a parameterless constructor. -/
def clsR : LearnerClass :=
  { params := [], localVars := [], attrs := [] }

/-- A binding with both problem types bound. -/
def ftBoth : LearnerTypes :=
  { classification := Option.some clsA, regression := Option.some clsR }

/-- A binding with only the classification slot bound. -/
def ftClsOnly : LearnerTypes :=
  { classification := Option.some clsA, regression := Option.none }

/-- A dataset with a discrete target. -/
def dDisc : Data := { domain := { has_discrete_class := true } }

/-- A dataset with a continuous target. -/
def dCont : Data := { domain := { has_discrete_class := false } }

/-- The configuration `{a: 1, b: 2, c: 3}`. -/
def kw3 : List (String × Value) :=
  [(keyA, Value.nat 1), (keyB, Value.nat 2), (keyC, Value.nat 3)]

/-- A freshly constructed dispatcher binding both problem types. -/
def fBoth : Fitter := Fitter.init ftBoth true Value.pyNone kw3

/-- A freshly constructed dispatcher binding only classification. -/
def fClsOnly : Fitter := Fitter.init ftClsOnly false Value.pyNone kw3

/-- A freshly constructed dispatcher whose classification learner class
has the body-local variable `b`. -/
def fB : Fitter :=
  Fitter.init { classification := Option.some clsB, regression := Option.none }
    false Value.pyNone kw3

/-- The learner `fBoth` constructs for a discrete-target dataset. -/
def lW : Learner :=
  { cls := clsA
    init_kwargs := [(keyA, Value.nat 1), (keyC, Value.nat 3)]
    use_default_preprocessors := true
    ident := 0 }

/-- The state of `fBoth` after one successful invocation on `dDisc`. -/
def fW : Fitter :=
  { fits := ftBoth
    kwargs := dictSet kw3 preprocessorsKey Value.pyNone
    use_default_preprocessors := true
    problem_type := Option.some ProblemType.classification
    learners := { classification := Option.some lW, regression := Option.none }
    nextId := 1 }

/-- The state of `fBoth` after resolving the classification learner
directly through `get_learner` (no problem type recorded yet). -/
def fGL : Fitter :=
  { fits := ftBoth
    kwargs := dictSet kw3 preprocessorsKey Value.pyNone
    use_default_preprocessors := true
    problem_type := Option.none
    learners := { classification := Option.some lW, regression := Option.none }
    nextId := 1 }

/-- The model produced by `fBoth`'s first invocation on `dDisc`. -/
def mW : ModelV := lW.call dDisc

/-! Supporting lemmas about the embedding. -/

theorem Learners.get_set_self (ls : Learners) (k : ProblemType) (v : Option Learner) :
    (ls.set k v).get k = v := by
  cases k <;> rfl

theorem Learners.get_set_ne (ls : Learners) (k k2 : ProblemType) (v : Option Learner)
    (h : k2 ≠ k) : (ls.set k v).get k2 = ls.get k2 := by
  cases k <;> cases k2 <;> first | rfl | exact absurd rfl h

theorem lookupKV_filter (d : List (String × Value)) (pred : String → Bool) (k : String) :
    lookupKV (d.filter (fun p => pred p.1)) k =
      if pred k then lookupKV d k else Option.none := by
  induction d with
  | nil => simp [lookupKV]
  | cons hd tl ih =>
    obtain ⟨k', v⟩ := hd
    by_cases hp : pred k'
    · by_cases hk : k' = k
      · subst hk
        simp [List.filter_cons, hp, lookupKV]
      · simp [List.filter_cons, hp, lookupKV, hk, ih]
    · by_cases hk : k' = k
      · subst hk
        simp [List.filter_cons, hp, lookupKV, ih]
      · simp [List.filter_cons, hp, lookupKV, hk, ih]

theorem lookupKV_dictSet (d : List (String × Value)) (k : String) (v : Value) :
    lookupKV (dictSet d k v) k = Option.some v := by
  induction d with
  | nil => simp [dictSet, lookupKV]
  | cons hd tl ih =>
    obtain ⟨k', v'⟩ := hd
    by_cases h : k' = k <;> simp [dictSet, h, lookupKV, ih]

theorem mem_handledProblemTypes (f : Fitter) (k : ProblemType) :
    k ∈ f.handledProblemTypes ↔ (f.fits.get k).isSome := by
  cases k <;>
    cases hc : f.fits.classification <;>
    cases hr : f.fits.regression <;>
      simp [Fitter.handledProblemTypes, LearnerTypes.get, hc, hr]

theorem get_learner_none (f : Fitter) :
    f.get_learner Option.none = (Except.error noLearnerError, f) := rfl

theorem get_learner_unbound (f : Fitter) (k : ProblemType)
    (h : f.fits.get k = Option.none) :
    f.get_learner (Option.some k) = (Except.error noLearnerError, f) := by
  have hm : k ∉ f.handledProblemTypes := by
    simp [mem_handledProblemTypes, h]
  simp [Fitter.get_learner, hm]

theorem get_learner_cached (f : Fitter) (k : ProblemType) (l : Learner)
    (hb : (f.fits.get k).isSome) (hc : f.learners.get k = Option.some l) :
    f.get_learner (Option.some k) = (Except.ok l, f) := by
  have hm : k ∈ f.handledProblemTypes := (mem_handledProblemTypes f k).2 hb
  simp [Fitter.get_learner, hm, hc]

theorem get_learner_fresh (f : Fitter) (k : ProblemType) (cls : LearnerClass)
    (hb : f.fits.get k = Option.some cls) (hc : f.learners.get k = Option.none) :
    f.get_learner (Option.some k) =
      (Except.ok (f.freshLearner cls),
        { f with learners := f.learners.set k (Option.some (f.freshLearner cls)),
                 nextId := f.nextId + 1 }) := by
  have hm : k ∈ f.handledProblemTypes := by
    simp [mem_handledProblemTypes, hb]
  simp [Fitter.get_learner, hm, hc, hb, Fitter.freshLearner]

theorem get_learner_error_state (f : Fitter) (pt : Option ProblemType) (e : FitterError)
    (f2 : Fitter) (h : f.get_learner pt = (Except.error e, f2)) :
    f2 = f ∧ e = noLearnerError := by
  cases pt with
  | none =>
    rw [get_learner_none] at h
    injection h with h1 h2
    injection h1 with h1
    exact ⟨h2.symm, h1.symm⟩
  | some k =>
    by_cases hb : (f.fits.get k).isSome
    · rcases Option.isSome_iff_exists.1 hb with ⟨cls, hcls⟩
      cases hcache : f.learners.get k with
      | some l =>
        rw [get_learner_cached f k l hb hcache] at h
        injection h with h1 h2
        exact absurd h1 (by simp)
      | none =>
        rw [get_learner_fresh f k cls hcls hcache] at h
        injection h with h1 h2
        exact absurd h1 (by simp)
    · have hn : f.fits.get k = Option.none := Option.not_isSome_iff_eq_none.1 hb
      rw [get_learner_unbound f k hn] at h
      injection h with h1 h2
      injection h1 with h1
      exact ⟨h2.symm, h1.symm⟩

theorem get_learner_ok_state (f : Fitter) (k : ProblemType) (l : Learner) (f2 : Fitter)
    (h : f.get_learner (Option.some k) = (Except.ok l, f2)) :
    f2.learners.get k = Option.some l ∧
    f2.problem_type = f.problem_type ∧
    f2.fits = f.fits ∧
    f2.kwargs = f.kwargs ∧
    f2.use_default_preprocessors = f.use_default_preprocessors ∧
    (f.fits.get k).isSome = true ∧
    (∀ k2, k2 ≠ k → f2.learners.get k2 = f.learners.get k2) := by
  by_cases hb : (f.fits.get k).isSome
  · rcases Option.isSome_iff_exists.1 hb with ⟨cls, hcls⟩
    cases hcache : f.learners.get k with
    | some l0 =>
      rw [get_learner_cached f k l0 hb hcache] at h
      injection h with h1 h2
      injection h1 with h1
      subst h1
      subst h2
      exact ⟨hcache, rfl, rfl, rfl, rfl, hb, fun _ _ => rfl⟩
    | none =>
      rw [get_learner_fresh f k cls hcls hcache] at h
      injection h with h1 h2
      injection h1 with h1
      subst h1
      subst h2
      refine ⟨Learners.get_set_self _ _ _, rfl, rfl, rfl, rfl, hb, ?_⟩
      intro k2 hk2
      exact Learners.get_set_ne _ _ _ _ hk2
  · have hn : f.fits.get k = Option.none := Option.not_isSome_iff_eq_none.1 hb
    rw [get_learner_unbound f k hn] at h
    injection h with h1 h2
    exact absurd h1 (by simp)

theorem call_def (f : Fitter) (d : Data) :
    f.call d =
      (match ({ f with problem_type := Option.some d.problemTypeOf } : Fitter).get_learner
          (Option.some d.problemTypeOf) with
        | (Except.ok l, f2) => (Except.ok (l.call d), f2)
        | (Except.error e, f2) => (Except.error e, f2)) := rfl

theorem getattr_def (f : Fitter) (item : String) :
    f.getattr item =
      (match f.get_learner f.problem_type with
        | (Except.ok l, f2) => (Except.ok (l.getattr item), f2)
        | (Except.error e, f2) => (Except.error e, f2)) := rfl

theorem call_eq_unbound (f : Fitter) (d : Data)
    (hb : f.fits.get d.problemTypeOf = Option.none) :
    f.call d = (Except.error noLearnerError,
      { f with problem_type := Option.some d.problemTypeOf }) := by
  rw [call_def,
    get_learner_unbound ({ f with problem_type := Option.some d.problemTypeOf } : Fitter)
      d.problemTypeOf hb]

theorem call_eq_fresh (f : Fitter) (d : Data) (cls : LearnerClass)
    (hb : f.fits.get d.problemTypeOf = Option.some cls)
    (hc : f.learners.get d.problemTypeOf = Option.none) :
    f.call d =
      (Except.ok ((f.freshLearner cls).call d),
        { f with problem_type := Option.some d.problemTypeOf,
                 learners := f.learners.set d.problemTypeOf
                   (Option.some (f.freshLearner cls)),
                 nextId := f.nextId + 1 }) := by
  rw [call_def,
    get_learner_fresh ({ f with problem_type := Option.some d.problemTypeOf } : Fitter)
      d.problemTypeOf cls hb hc]
  exact rfl

theorem call_ok_state (f : Fitter) (d : Data) (m : ModelV) (f1 : Fitter)
    (h : f.call d = (Except.ok m, f1)) :
    f1.problem_type = Option.some d.problemTypeOf ∧
    f1.learners.get d.problemTypeOf = Option.some m.learner ∧
    (f1.fits.get d.problemTypeOf).isSome = true ∧
    f1.fits = f.fits ∧
    f1.kwargs = f.kwargs ∧
    f1.use_default_preprocessors = f.use_default_preprocessors ∧
    m.data = d := by
  rw [call_def] at h
  rcases hgl : ({ f with problem_type := Option.some d.problemTypeOf } : Fitter).get_learner
      (Option.some d.problemTypeOf) with ⟨r, f2⟩
  rw [hgl] at h
  cases r with
  | ok l =>
    injection h with h1 h2
    injection h1 with h1
    subst h2
    obtain ⟨hcache, hpt, hfits, hkw, hudp, hbound, _⟩ := get_learner_ok_state _ _ _ _ hgl
    have hm : m.learner = l ∧ m.data = d := by
      cases m
      injection h1.symm with hl hd
      exact ⟨hl, hd⟩
    refine ⟨?_, ?_, ?_, ?_, ?_, ?_, hm.2⟩
    · exact hpt
    · rw [hm.1]; exact hcache
    · rw [hfits]; exact hbound
    · exact hfits
    · exact hkw
    · exact hudp
  | error e =>
    injection h with h1 h2
    exact absurd h1 (by simp)

theorem problem_type_update_self (f : Fitter) (k : ProblemType)
    (h : f.problem_type = Option.some k) :
    ({ f with problem_type := Option.some k } : Fitter) = f := by
  cases f
  simp_all

theorem call_cache_kinds (f : Fitter) (d : Data) (pk : ProblemType)
    (h : (((f.call d).2).learners.get pk).isSome = true) :
    pk = d.problemTypeOf ∨ (f.learners.get pk).isSome = true := by
  by_cases hpk : pk = d.problemTypeOf
  · exact Or.inl hpk
  · right
    rw [call_def] at h
    rcases hgl : ({ f with problem_type := Option.some d.problemTypeOf } : Fitter).get_learner
        (Option.some d.problemTypeOf) with ⟨r, f2⟩
    rw [hgl] at h
    cases r with
    | ok l =>
      obtain ⟨_, _, _, _, _, _, hun⟩ := get_learner_ok_state _ _ _ _ hgl
      have h2 : (f2.learners.get pk).isSome = true := h
      rw [hun pk hpk] at h2
      exact h2
    | error e =>
      obtain ⟨hf2, _⟩ := get_learner_error_state _ _ _ _ hgl
      subst hf2
      exact h

theorem runCalls_cache_kinds (f : Fitter) (ds : List Data) (pk : ProblemType)
    (h : ((f.runCalls ds).learners.get pk).isSome = true) :
    pk ∈ ds.map Data.problemTypeOf ∨ (f.learners.get pk).isSome = true := by
  induction ds generalizing f with
  | nil => exact Or.inr h
  | cons d rest ih =>
    have h' : ((Fitter.runCalls (f.call d).2 rest).learners.get pk).isSome = true := h
    rcases ih _ h' with hmem | hsome
    · exact Or.inl (by simp only [List.map_cons, List.mem_cons]; exact Or.inr hmem)
    · rcases call_cache_kinds f d pk hsome with heq | hbase
      · exact Or.inl (by simp only [List.map_cons, List.mem_cons]; exact Or.inl heq)
      · exact Or.inr hbase

/-! Claim theorems. -/

/-- C1: for a dispatcher whose binding covers the dataset's target kind
(and whose cache slot for it is still empty), `__call__` on a dataset
with a discrete target selects the classification kind and on a
continuous target the regression kind, records it as the problem type,
caches exactly that kind's learner (built from the bound class, the
other slot untouched), and delegates fitting to that learner. -/
theorem c1_dispatch_selects_and_caches (f : Fitter) (d : Data) (cls : LearnerClass)
    (hb : f.fits.get d.problemTypeOf = Option.some cls)
    (hc : f.learners.get d.problemTypeOf = Option.none) :
    d.problemTypeOf = (if d.domain.has_discrete_class then ProblemType.classification
      else ProblemType.regression) ∧
    ∃ l : Learner,
      (f.call d).1 = Except.ok (l.call d) ∧
      ((f.call d).2).problem_type = Option.some d.problemTypeOf ∧
      ((f.call d).2).learners.get d.problemTypeOf = Option.some l ∧
      (∀ k2, k2 ≠ d.problemTypeOf → ((f.call d).2).learners.get k2 = f.learners.get k2) ∧
      l.cls = cls := by
  have hce := call_eq_fresh f d cls hb hc
  refine ⟨rfl, f.freshLearner cls, ?_, ?_, ?_, ?_, rfl⟩
  · rw [hce]
  · rw [hce]
  · rw [hce]; exact Learners.get_set_self _ _ _
  · intro k2 hk2; rw [hce]; exact Learners.get_set_ne _ _ _ _ hk2

/-- C1 witness: `fBoth` invoked on the discrete-target dataset. -/
theorem c1_witness :
    fBoth.fits.get dDisc.problemTypeOf = Option.some clsA ∧
    fBoth.learners.get dDisc.problemTypeOf = Option.none ∧
    ∃ l : Learner, (fBoth.call dDisc).1 = Except.ok (l.call dDisc) ∧
      ((fBoth.call dDisc).2).learners.get dDisc.problemTypeOf = Option.some l :=
  ⟨rfl, rfl, ((c1_dispatch_selects_and_caches fBoth dDisc clsA rfl rfl).2).imp
    (fun _ hl => ⟨hl.1, hl.2.2.1⟩)⟩

/-- C2 counterexample: a class dict with an invalid `__fits__` (the value
`None`) and no `name` entry — the shape of a concrete dispatcher subtype
declared without a valid learner binding — is accepted silently by
`FitterMeta.__new__`, contradicting the claim that no such subtype can
be defined silently. -/
theorem c2_silent_subtype_counterexample :
    FitterMeta_new [(fitsKey, PyVal.pyNone)] = Except.ok () := rfl

/-- C2 amended: `FitterMeta.__new__` rejects a subtype declaration with
the `InvalidSubtypeDefinition` error precisely when the class dict holds
a truthy `name` entry and its `__fits__` entry is not of the
`LearnerTypes` shape; a declaration without a truthy `name` entry is
accepted silently whatever its `__fits__`. -/
theorem c2_meta_check_iff (kwargs : List (String × PyVal)) :
    FitterMeta_new kwargs = Except.error (FitterError.assertionError fitsMsg) ↔
      ((classDictGet kwargs nameKey (PyVal.bool false)).truthy = true ∧
       (classDictGet kwargs fitsKey PyVal.pyNone).isLearnerTypes = false) := by
  by_cases h1 : (classDictGet kwargs nameKey (PyVal.bool false)).truthy <;>
    by_cases h2 : (classDictGet kwargs fitsKey PyVal.pyNone).isLearnerTypes <;>
      simp [FitterMeta_new, h1, h2]

/-- C3: the learner is constructed with exactly the intersection of the
constructor's accepted names and the stored configuration keys — lookup
in the filtered kwargs succeeds exactly on accepted keys with the stored
values; on the configuration `{a: 1, b: 2, c: 3}` with a constructor
accepting `{a, c}` the filtered kwargs are exactly `{a: 1, c: 3}` (the
unsupported key `b` is dropped without an error); and whatever learner
`get_learner` constructs received exactly those filtered kwargs. -/
theorem c3_param_filtering :
    (∀ (kwargs : List (String × Value)) (cls : LearnerClass) (key : String),
      lookupKV (Fitter.get_kwargs kwargs cls) key =
        if key ∈ Fitter.get_learner_kwargs cls then lookupKV kwargs key else Option.none) ∧
    Fitter.get_kwargs kw3 clsA = [(keyA, Value.nat 1), (keyC, Value.nat 3)] ∧
    (∀ (f : Fitter) (k : ProblemType) (cls : LearnerClass) (l : Learner) (f2 : Fitter),
      f.fits.get k = Option.some cls → f.learners.get k = Option.none →
      f.get_learner (Option.some k) = (Except.ok l, f2) →
      l.init_kwargs = Fitter.get_kwargs f.kwargs cls) := by
  refine ⟨?_, rfl, ?_⟩
  · intro kwargs cls key
    have hf := lookupKV_filter kwargs ((Fitter.get_learner_kwargs cls).contains) key
    rw [Fitter.get_kwargs, hf]
    by_cases hm : key ∈ Fitter.get_learner_kwargs cls <;>
      simp [List.contains, List.elem_iff, hm]
  · intro f k cls l f2 hb hc hgl
    rw [get_learner_fresh f k cls hb hc] at hgl
    injection hgl with h1 h2
    injection h1 with h1
    subst h1
    rfl

/-- C3 witness: resolving the classification learner of `fBoth` builds it
with the filtered kwargs of `clsA`. -/
theorem c3_witness :
    fBoth.fits.get ProblemType.classification = Option.some clsA ∧
    fBoth.learners.get ProblemType.classification = Option.none ∧
    fBoth.get_learner (Option.some ProblemType.classification) = (Except.ok lW, fGL) ∧
    lW.init_kwargs = Fitter.get_kwargs fBoth.kwargs clsA :=
  ⟨rfl, rfl, rfl,
    c3_param_filtering.2.2 fBoth ProblemType.classification clsA lW fGL rfl rfl rfl⟩

/-- C4: `get_learner` raises the `UnsupportedProblemKind`-style error on a
problem kind exactly when that kind's `__fits__` slot is null, a failed
resolution leaves the dispatcher state untouched, and a failed
invocation for an unbound kind leaves every learner-cache slot as it was
(unpopulated if it was empty) and constructs no learner. -/
theorem c4_unsupported_kind (f : Fitter) (k : ProblemType) (d : Data) :
    ((f.get_learner (Option.some k)).1 = Except.error noLearnerError ↔
      f.fits.get k = Option.none) ∧
    (f.fits.get k = Option.none →
      f.get_learner (Option.some k) = (Except.error noLearnerError, f)) ∧
    (f.fits.get d.problemTypeOf = Option.none →
      (f.call d).1 = Except.error noLearnerError ∧
      ((f.call d).2).learners = f.learners ∧
      ((f.call d).2).nextId = f.nextId) := by
  refine ⟨⟨?_, ?_⟩, ?_, ?_⟩
  · intro herr
    by_contra hne
    rcases Option.ne_none_iff_exists'.1 hne with ⟨cls, hcls⟩
    cases hcache : f.learners.get k with
    | some l =>
      rw [get_learner_cached f k l (by simp [hcls]) hcache] at herr
      exact absurd herr (by simp)
    | none =>
      rw [get_learner_fresh f k cls hcls hcache] at herr
      exact absurd herr (by simp)
  · intro hn
    rw [get_learner_unbound f k hn]
  · intro hn
    exact get_learner_unbound f k hn
  · intro hn
    rw [call_eq_unbound f d hn]
    exact ⟨rfl, rfl, rfl⟩

/-- C4 witness: the classification-only dispatcher invoked on a
continuous-target dataset fails and caches nothing. -/
theorem c4_witness :
    fClsOnly.fits.get ProblemType.regression = Option.none ∧
    (fClsOnly.call dCont).1 = Except.error noLearnerError ∧
    ((fClsOnly.call dCont).2).learners = fClsOnly.learners :=
  ⟨rfl, ((c4_unsupported_kind fClsOnly ProblemType.regression dCont).2.2 rfl).1,
    ((c4_unsupported_kind fClsOnly ProblemType.regression dCont).2.2 rfl).2.1⟩

/-- C5: after a successful invocation, a second invocation with a dataset
of the same target kind returns the identical cached learner instance
applied to the new data and leaves the dispatcher state unchanged —
learner construction happens at most once per kind per instance. -/
theorem c5_idempotent_reuse (f : Fitter) (d1 d2 : Data) (m1 : ModelV) (f1 : Fitter)
    (hk : d1.problemTypeOf = d2.problemTypeOf)
    (h1 : f.call d1 = (Except.ok m1, f1)) :
    f1.call d2 = (Except.ok (m1.learner.call d2), f1) := by
  obtain ⟨hpt, hcache, hbound, _, _, _, _⟩ := call_ok_state f d1 m1 f1 h1
  rw [call_def f1 d2]
  have heq : ({ f1 with problem_type := Option.some d2.problemTypeOf } : Fitter) = f1 := by
    apply problem_type_update_self
    rw [hpt, hk]
  rw [heq]
  rw [hk] at hcache hbound
  rw [get_learner_cached f1 d2.problemTypeOf m1.learner hbound hcache]

/-- C5 witness: invoking `fBoth` twice on the discrete-target dataset
reuses the learner cached by the first call and leaves the state as it
was after the first call. -/
theorem c5_witness :
    dDisc.problemTypeOf = dDisc.problemTypeOf ∧
    fBoth.call dDisc = (Except.ok mW, fW) ∧
    fW.call dDisc = (Except.ok (mW.learner.call dDisc), fW) :=
  ⟨rfl, rfl, c5_idempotent_reuse fBoth dDisc dDisc mW fW rfl rfl⟩

/-- C6: after a successful invocation, an attribute read not handled by
the dispatcher itself is answered by the learner resolved for the active
problem kind (without changing the state); on a freshly constructed
dispatcher, before any invocation, the same read raises the same
`UnsupportedProblemKind`-style error instead of silently picking a
learner. -/
theorem c6_attr_proxy :
    (∀ (f : Fitter) (d : Data) (m : ModelV) (f1 : Fitter) (item : String),
      f.call d = (Except.ok m, f1) →
      f1.getattr item = (Except.ok (m.learner.getattr item), f1)) ∧
    (∀ (fits : LearnerTypes) (udp : Bool) (pre : Value) (kw : List (String × Value))
      (item : String),
      (Fitter.init fits udp pre kw).getattr item =
        (Except.error noLearnerError, Fitter.init fits udp pre kw)) := by
  constructor
  · intro f d m f1 item h
    obtain ⟨hpt, hcache, hbound, _, _, _, _⟩ := call_ok_state f d m f1 h
    rw [getattr_def, hpt,
      get_learner_cached f1 d.problemTypeOf m.learner hbound hcache]
  · intro fits udp pre kw item
    rfl

/-- C6 witness: after invoking `fBoth` on the discrete dataset, reading
the `coef` attribute is answered by the cached classification learner. -/
theorem c6_witness :
    fBoth.call dDisc = (Except.ok mW, fW) ∧
    fW.getattr coefKey = (Except.ok (mW.learner.getattr coefKey), fW) :=
  ⟨rfl, c6_attr_proxy.1 fBoth dDisc mW fW coefKey rfl⟩

/-- C7: the preprocessing value supplied at construction is stored in the
kwargs mapping under the reserved `preprocessors` key, and any learner
`get_learner` constructs has its `use_default_preprocessors` flag set
equal to the dispatcher's flag by the post-construction assignment,
whatever the parameter filtering passed to the constructor. -/
theorem c7_preprocessing (fits : LearnerTypes) (udp : Bool) (pre : Value)
    (kw : List (String × Value)) (f : Fitter) (k : ProblemType) (cls : LearnerClass)
    (l : Learner) (f2 : Fitter) :
    lookupKV (Fitter.init fits udp pre kw).kwargs preprocessorsKey = Option.some pre ∧
    (f.fits.get k = Option.some cls → f.learners.get k = Option.none →
      f.get_learner (Option.some k) = (Except.ok l, f2) →
      l.use_default_preprocessors = f.use_default_preprocessors) := by
  constructor
  · exact lookupKV_dictSet kw preprocessorsKey pre
  · intro hb hc hgl
    rw [get_learner_fresh f k cls hb hc] at hgl
    injection hgl with h1 h2
    injection h1 with h1
    subst h1
    rfl

/-- C7 witness: `fBoth` stores its `None` preprocessing value under the
reserved key and builds its classification learner with the dispatcher's
flag value. -/
theorem c7_witness :
    fBoth.fits.get ProblemType.classification = Option.some clsA ∧
    fBoth.learners.get ProblemType.classification = Option.none ∧
    fBoth.get_learner (Option.some ProblemType.classification) = (Except.ok lW, fGL) ∧
    lookupKV fBoth.kwargs preprocessorsKey = Option.some Value.pyNone ∧
    lW.use_default_preprocessors = fBoth.use_default_preprocessors :=
  ⟨rfl, rfl, rfl,
    (c7_preprocessing ftBoth true Value.pyNone kw3 fBoth ProblemType.classification clsA
      lW fGL).1,
    (c7_preprocessing ftBoth true Value.pyNone kw3 fBoth ProblemType.classification clsA
      lW fGL).2 rfl rfl rfl⟩

/-- C8 counterexample: invoking `fBoth` first on a discrete-target and
then on a continuous-target dataset populates both learner-cache slots,
and the classification slot stays populated while `problem_type` has
moved on to regression — so it is false that at most one slot is ever
populated and that every populated slot matches the active problem
kind. -/
theorem c8_single_slot_counterexample :
    ((fBoth.runCalls [dDisc, dCont]).learners.get ProblemType.classification).isSome = true ∧
    ((fBoth.runCalls [dDisc, dCont]).learners.get ProblemType.regression).isSome = true ∧
    (fBoth.runCalls [dDisc, dCont]).problem_type = Option.some ProblemType.regression :=
  ⟨rfl, rfl, rfl⟩

/-- C8 amended: over any sequence of invocations on a freshly constructed
dispatcher, a learner-cache slot is populated only for problem kinds
that some invocation in the sequence actually had — so invocations of a
single target kind populate at most that one slot, while a mixed-kind
sequence may legitimately populate both, the earlier slot persisting
even though `problem_type` no longer matches it. -/
theorem c8_cache_slots_only_invoked_kinds (fits : LearnerTypes) (udp : Bool) (pre : Value)
    (kw : List (String × Value)) (ds : List Data) (pk : ProblemType)
    (h : (((Fitter.init fits udp pre kw).runCalls ds).learners.get pk).isSome = true) :
    pk ∈ ds.map Data.problemTypeOf := by
  rcases runCalls_cache_kinds _ ds pk h with hm | hs
  · exact hm
  · exfalso
    cases pk <;> simp [Fitter.init, Learners.get] at hs

/-- C8 witness: after one discrete-target invocation, the populated
classification slot indeed corresponds to an invoked kind. -/
theorem c8_witness :
    (((Fitter.init ftBoth true Value.pyNone kw3).runCalls [dDisc]).learners.get
      ProblemType.classification).isSome = true ∧
    ProblemType.classification ∈ [dDisc].map Data.problemTypeOf :=
  ⟨rfl, c8_cache_slots_only_invoked_kinds ftBoth true Value.pyNone kw3 [dDisc]
    ProblemType.classification rfl⟩

/-- C9: the accepted-name set used for filtering is the constructor code
object's `co_varnames` without the leading `self`, which is the declared
parameters together with the body's local variables; concretely, for the
learner class whose constructor accepts only `a` but declares a local
`b`, resolving the learner passes the stored configuration key `b` to
the constructor even though `b` is not a declared parameter. -/
theorem c9_varnames_include_locals :
    (∀ cls : LearnerClass, Fitter.get_learner_kwargs cls = cls.params ++ cls.localVars) ∧
    (clsB.localVars.contains keyB = true ∧ clsB.params.contains keyB = false) ∧
    (∃ (l : Learner) (f2 : Fitter),
      fB.get_learner (Option.some ProblemType.classification) = (Except.ok l, f2) ∧
      lookupKV l.init_kwargs keyB = Option.some (Value.nat 2)) :=
  ⟨fun _ => rfl, ⟨rfl, rfl⟩, ⟨_, _, rfl, rfl⟩⟩

/-- C10: a failed invocation for an unbound problem kind overwrites
`problem_type` with that kind before the error is raised, so every
subsequent attribute-proxy read on the instance re-attempts the unbound
kind and fails with the same error. -/
theorem c10_problem_type_overwritten_before_error (f : Fitter) (d : Data) (item : String)
    (h : f.fits.get d.problemTypeOf = Option.none) :
    (f.call d).1 = Except.error noLearnerError ∧
    ((f.call d).2).problem_type = Option.some d.problemTypeOf ∧
    ((f.call d).2).getattr item = (Except.error noLearnerError, (f.call d).2) := by
  have hce := call_eq_unbound f d h
  refine ⟨?_, ?_, ?_⟩
  · rw [hce]
  · rw [hce]
  · rw [hce, getattr_def]
    have hgl := get_learner_unbound
      ({ f with problem_type := Option.some d.problemTypeOf } : Fitter) d.problemTypeOf h
    simp only []
    rw [show ({ f with problem_type := Option.some d.problemTypeOf } : Fitter).get_learner
        ({ f with problem_type := Option.some d.problemTypeOf } : Fitter).problem_type =
        (Except.error noLearnerError,
          ({ f with problem_type := Option.some d.problemTypeOf } : Fitter)) from hgl]

/-- C10 witness: the classification-only dispatcher invoked on a
continuous-target dataset records the regression kind before failing,
and attribute reads afterwards fail the same way. -/
theorem c10_witness :
    fClsOnly.fits.get dCont.problemTypeOf = Option.none ∧
    ((fClsOnly.call dCont).2).problem_type = Option.some dCont.problemTypeOf ∧
    ((fClsOnly.call dCont).2).getattr coefKey =
      (Except.error noLearnerError, (fClsOnly.call dCont).2) :=
  ⟨rfl, (c10_problem_type_overwritten_before_error fClsOnly dCont coefKey rfl).2.1,
    (c10_problem_type_overwritten_before_error fClsOnly dCont coefKey rfl).2.2⟩
